import Mathlib

/-!
Verification development for the threshold-BLS randomness network node.

This file gives a shallow embedding of the parts of the node exercised by the
checked properties:

* the committer RPC handler `commit_partial_signature`
  (crates/arpa-node/src/node/committer/server.rs),
* the retryable contract-call wrappers `call_contract_transaction` and
  `call_contract_view` together with the backoff strategy they build
  (crates/arpa-node/src/node/contract_client/src/lib.rs, plus the
  semantics of the tokio-retry strategy they instantiate),
* the `PreGroupingSubscriber::notify` transition
  (crates/arpa-node/src/node/subscriber/pre_grouping.rs),
* `Config::initialize`, `jitter` and the `rolling_file_size` deserializer
  (crates/arpa-node/src/node/core/src/types/config.rs),
* the `BLSResultCacheState` conversions (crates/arpa-node/src/node/dal/src/lib.rs).

Rust machine integers are embedded as `Nat` with explicit bounds where
overflow matters (`u64` checked multiplication saturating or failing at
`U64_MAX`). Fallible Rust code (`Result`) is embedded as `Except`,
`Option` as `Option`, and a reachable `unwrap`/`panic` is represented by a
distinguished `panic` outcome. Trait methods consumed by the embedded
functions (DAL caches, BLS verification, address parsing) are passed as
explicit function-valued parameters, mirroring the generic trait bounds of
the source.
-/

deriving instance DecidableEq for Except

/-- The largest value of a Rust `u64`. -/
def U64_MAX : Nat := 2 ^ 64 - 1

/-- Rust `u64::checked_mul`: `none` on overflow past `U64_MAX`. -/
def checkedMulU64 (a b : Nat) : Option Nat :=
  if a * b ≤ U64_MAX then some (a * b) else none

/-! ## BLSResultCacheState (dal/src/lib.rs lines 136-165) -/

/-- The commit state of a signature-result cache entry
(dal/src/lib.rs, `enum BLSResultCacheState`). -/
inductive BLSResultCacheState
  | NotCommitted
  | Committing
  | Committed
  | CommittedByOthers
deriving DecidableEq, Repr

/-- `BLSResultCacheState::to_i32` (dal/src/lib.rs lines 144-153). -/
def BLSResultCacheState.to_i32 : BLSResultCacheState → Int
  | .NotCommitted => 0
  | .Committing => 1
  | .Committed => 2
  | .CommittedByOthers => 3

/-- `impl From<i32> for BLSResultCacheState` (dal/src/lib.rs lines 155-165).
The `_ => panic!(..)` arm is embedded as `none`. -/
def BLSResultCacheState.from_i32 (b : Int) : Option BLSResultCacheState :=
  if b = 0 then some .NotCommitted
  else if b = 1 then some .Committing
  else if b = 2 then some .Committed
  else if b = 3 then some .CommittedByOthers
  else none

/-! ## Committer RPC server (committer/server.rs) -/

/-- gRPC status codes used by the handler (`tonic::Status` constructors). -/
inductive StatusCode
  | invalidArgument
  | notFound
  | internal
deriving DecidableEq, Repr

/-- The error payloads the handler puts into the returned status
(`NodeError` / `BLSTaskError` variants, plus the two `Status::internal`
messages built from foreign errors). -/
inductive NodeErrorKind
  | GroupNotReady
  | NotCommitter
  | AddressFormatError
  | MemberNotExisted
  | BlsVerificationFailed
  | InvalidChainId (chain_id : Nat)
  | CommitterCacheNotExisted
  | InvalidTaskMessage
  | Utf8Error
  | InvalidTaskType
deriving DecidableEq, Repr

/-- Modelled from the spec: the `TaskType` enum consumed by
`commit_partial_signature` lives in `arpa-node-core` outside the provided
sources; the spec's external-interface section says `task_type: uint32
(1 = Randomness)`. Raw values other than 1 are kept as `Other`. -/
inductive BLSTaskType
  | Randomness
  | Other (raw : Nat)
deriving DecidableEq, Repr

/-- Modelled from the spec: conversion of the wire `task_type` field,
`1 = Randomness` per the spec's committer-RPC description. -/
def BLSTaskType.fromRaw (n : Nat) : BLSTaskType :=
  if n = 1 then .Randomness else .Other n

/-- A group member record as consumed by the handler: only the
`partial_public_key` field (an `Option` until DKG completes) is read. -/
structure Member (PubKey : Type) where
  partial_public_key : Option PubKey

/-- The task-bound payload of a randomness result cache entry; the handler
reads `result_cache.message`. -/
structure RandomnessResultCache where
  message : String
deriving DecidableEq, Repr

/-- A signature-result cache entry `BLSResultCache<RandomnessResultCache>`. -/
structure BLSResultCache where
  result_cache : RandomnessResultCache
  state : BLSResultCacheState
deriving DecidableEq, Repr

/-- The randomness signature-result cache, keyed by `signature_index`:
`contains i` is `(cache i).isSome` and `get i` is `cache i`. -/
def SigCache : Type := Nat → Option BLSResultCache

/-- The wire request of `CommitPartialSignature`
(fields per the rpc stub: byte vectors as `List Nat`). -/
structure CommitPartialSignatureRequest where
  id_address : String
  chain_id : Nat
  task_type : Nat
  signature_index : Nat
  partial_signature : List Nat
  message : List Nat

/-- The environment of the handler: the server's group cache and context
reads, and the trait methods the generic bounds provide. Mirrors, in order:
`get_state()`, `is_committer(self.id_address)`, address parsing,
`get_member`, `SimpleBLSCore::partial_verify`, `String::from_utf8`, and the
cache's `add_partial_signature` (returning the updated cache and its
`bool`). -/
structure CommitEnv (Addr PubKey : Type) where
  get_state : Except Unit Bool
  is_committer : Except Unit Bool
  parse_address : String → Option Addr
  get_member : Addr → Except Unit (Member PubKey)
  partial_verify : PubKey → List Nat → List Nat → Except Unit Unit
  string_from_utf8 : List Nat → Option String
  add_partial_signature : SigCache → Nat → Addr → List Nat → Except Unit (SigCache × Bool)

/-- What one call of the handler can do: panic (a reachable `unwrap` on
`None`/`Err`), return a `tonic::Status` error, or return the reply. -/
inductive RpcResult
  | panic
  | error (code : StatusCode) (err : NodeErrorKind)
  | reply (result : Bool)
deriving DecidableEq, Repr

/-- The observable outcome of `commit_partial_signature`: the RPC result, the
signature-result cache after the call, and whether `add_partial_signature`
was invoked. -/
structure CommitOutcome where
  result : RpcResult
  cache : SigCache
  called_add_partial_signature : Bool

/-- Shallow embedding of `commit_partial_signature`
(committer/server.rs lines 106-206), statement for statement:
group-state gate, committer gate, address parse, member lookup (the failing
lookup falls through to `MemberNotExisted` at line 205), `unwrap` of the
member's partial public key, BLS partial verification, task-type match,
chain-id match (only `0` selects the main-chain cache), cache `contains`,
cache `get(..).unwrap()`, `String::from_utf8`, message comparison, and
finally `add_partial_signature` with its error mapped to `Internal`. -/
def commit_partial_signature {Addr PubKey : Type} (env : CommitEnv Addr PubKey)
    (cache : SigCache) (req : CommitPartialSignatureRequest) : CommitOutcome :=
  match env.get_state with
  | .error _ => ⟨.error .notFound .GroupNotReady, cache, false⟩
  | .ok false => ⟨.error .notFound .GroupNotReady, cache, false⟩
  | .ok true =>
    match env.is_committer with
    | .error _ => ⟨.error .notFound .NotCommitter, cache, false⟩
    | .ok false => ⟨.error .notFound .NotCommitter, cache, false⟩
    | .ok true =>
      match env.parse_address req.id_address with
      | none => ⟨.error .invalidArgument .AddressFormatError, cache, false⟩
      | some req_id_address =>
        match env.get_member req_id_address with
        | .error _ => ⟨.error .notFound .MemberNotExisted, cache, false⟩
        | .ok member =>
          match member.partial_public_key with
          | none => ⟨.panic, cache, false⟩
          | some partial_public_key =>
            match env.partial_verify partial_public_key req.message req.partial_signature with
            | .error _ => ⟨.error .internal .BlsVerificationFailed, cache, false⟩
            | .ok _ =>
              match BLSTaskType.fromRaw req.task_type with
              | .Other _ => ⟨.error .invalidArgument .InvalidTaskType, cache, false⟩
              | .Randomness =>
                match req.chain_id with
                | Nat.succ _ =>
                  ⟨.error .invalidArgument (.InvalidChainId req.chain_id), cache, false⟩
                | 0 =>
                  if (cache req.signature_index).isSome = false then
                    ⟨.error .invalidArgument .CommitterCacheNotExisted, cache, false⟩
                  else
                    match cache req.signature_index with
                    | none => ⟨.panic, cache, false⟩
                    | some entry =>
                      match env.string_from_utf8 req.message with
                      | none => ⟨.error .internal .Utf8Error, cache, false⟩
                      | some req_message =>
                        if req_message ≠ entry.result_cache.message then
                          ⟨.error .invalidArgument .InvalidTaskMessage, cache, false⟩
                        else
                          match env.add_partial_signature cache req.signature_index
                              req_id_address req.partial_signature with
                          | .error _ =>
                            ⟨.error .internal .CommitterCacheNotExisted, cache, true⟩
                          | .ok (cache2, _) => ⟨.reply true, cache2, true⟩

/-! ## Retryable contract calls (contract_client/src/lib.rs) -/

/-- Modelled from the spec: the `ContractClientError` enum lives in the
contract client's `error` module, outside the provided sources. The spec's
error-handling section distinguishes transient network/RPC errors
(here `SendError` for a failed `call.send()` and `ProviderError` for a
failed receipt await), a missing receipt (`NoTransactionReceipt`, named in
the provided `lib.rs`), and a mined-but-failed transaction
(`TransactionFailed`, named in the provided `lib.rs`). -/
inductive ContractClientError
  | SendError
  | ProviderError
  | NoTransactionReceipt
  | TransactionFailed
deriving DecidableEq, Repr

/-- A transaction receipt as read by `call_contract_transaction`:
its `status` word and its hash (H256 kept abstract as `Nat`). -/
structure TransactionReceipt where
  status : Option Nat
  transaction_hash : Nat
deriving DecidableEq, Repr

/-- The chain I/O one attempt of `call_contract_transaction` performs:
the outcome of `call.send()` and, if that succeeds, of awaiting the
pending transaction (`Ok none` is a missing receipt). -/
structure TransactionAttemptEnv where
  send : Except ContractClientError Unit
  await_receipt : Except ContractClientError (Option TransactionReceipt)

/-- One attempt of the `call_contract_transaction` closure
(contract_client/src/lib.rs lines 43-71): propagate the send error,
propagate the receipt-await error, map a missing receipt to
`NoTransactionReceipt`, map a receipt with `status == Some(0)` to
`TransactionFailed`, otherwise return the transaction hash. -/
def transaction_attempt (env : TransactionAttemptEnv) : Except ContractClientError Nat :=
  match env.send with
  | .error e => .error e
  | .ok _ =>
    match env.await_receipt with
    | .error e => .error e
    | .ok none => .error .NoTransactionReceipt
    | .ok (some receipt) =>
      if receipt.status = some 0 then .error .TransactionFailed
      else .ok receipt.transaction_hash

/-- The `RetryIf` predicate of `call_contract_transaction`
(contract_client/src/lib.rs lines 72-74):
`retry_on_transaction_fail || !matches!(e, TransactionFailed)`. -/
def transaction_retry_condition (retry_on_transaction_fail : Bool)
    (e : ContractClientError) : Bool :=
  retry_on_transaction_fail || !(e = .TransactionFailed)

/-- State of tokio-retry's `ExponentialBackoff` iterator (crate
`tokio-retry`, instantiated by both wrappers): `from_millis(base)` starts
with `current = base` and multiplier `factor`. -/
structure ExponentialBackoff where
  current : Nat
  base : Nat
  factor : Nat
deriving DecidableEq, Repr

/-- One `next()` of the `ExponentialBackoff` iterator: the emitted delay is
`current * factor` (millis, saturating at `u64::MAX`), after which
`current` becomes `current * base` (saturating at `u64::MAX`). The
strategies built in `lib.rs` set no `max_delay`. -/
def ExponentialBackoff.next (s : ExponentialBackoff) : Nat × ExponentialBackoff :=
  let duration := match checkedMulU64 s.current s.factor with
    | some d => d
    | none => U64_MAX
  let current2 := match checkedMulU64 s.current s.base with
    | some n => n
    | none => U64_MAX
  (duration, { s with current := current2 })

/-- `Iterator::take n` on the backoff iterator, collected into a list of
millisecond delays. -/
def backoffTake : ExponentialBackoff → Nat → List Nat
  | _, 0 => []
  | s, n + 1 =>
    let step := s.next
    step.1 :: backoffTake step.2 n

/-- `jitter` (core/src/types/config.rs lines 48-50) multiplies a duration by
a sample drawn uniformly from `[0.5, 1.0]`; the sample stream `j` is made
explicit, indexed by draw order. -/
def jitter (j : Nat → ℚ) (k : Nat) (duration : ℚ) : ℚ :=
  duration * j k

/-- The `.map(|e| if use_jitter { jitter(e) } else { e })` step applied to a
list of delays, threading the draw index. -/
def mapJitter (use_jitter : Bool) (j : Nat → ℚ) : Nat → List Nat → List ℚ
  | _, [] => []
  | k, d :: rest =>
    (if use_jitter then jitter j k (d : ℚ) else (d : ℚ)) :: mapJitter use_jitter j (k + 1) rest

/-- `ExponentialBackoffRetryDescriptor` (core/src/types/config.rs
lines 224-230). -/
structure ExponentialBackoffRetryDescriptor where
  base : Nat
  factor : Nat
  max_attempts : Nat
  use_jitter : Bool
deriving DecidableEq, Repr

/-- The retry strategy both wrappers build from a descriptor
(contract_client/src/lib.rs lines 29-39 and 89-98):
`ExponentialBackoff::from_millis(base).factor(factor)` mapped through the
jitter step and cut by `take(max_attempts)`. The result is the list of
delays available for retries, in milliseconds. -/
def retryDelays (desc : ExponentialBackoffRetryDescriptor) (j : Nat → ℚ) : List ℚ :=
  mapJitter desc.use_jitter j 0
    (backoffTake { current := desc.base, base := desc.base, factor := desc.factor }
      desc.max_attempts)

/-- The loop of tokio-retry's `RetryIf::spawn`: run the action; on success
stop; on an error satisfying the condition, consume one delay from the
strategy and retry, or give up when the strategy is exhausted; on an error
failing the condition, stop. Returns how many attempts ran and the final
result. The attempt index is passed to the action so distinct attempts may
observe distinct chain states. -/
def retryIfRun {D E A : Type} (cond : E → Bool) (action : Nat → Except E A) :
    List D → Nat → Nat × Except E A
  | delays, i =>
    match action i with
    | .ok a => (1, .ok a)
    | .error e =>
      if cond e then
        match delays with
        | [] => (1, .error e)
        | _ :: rest =>
          let tail := retryIfRun cond action rest (i + 1)
          (tail.1 + 1, tail.2)
      else (1, .error e)

/-- `RetryIf::spawn(strategy, action, condition)`. -/
def retryIfSpawn {D E A : Type} (delays : List D) (action : Nat → Except E A)
    (cond : E → Bool) : Nat × Except E A :=
  retryIfRun cond action delays 0

/-- `call_contract_transaction` (contract_client/src/lib.rs lines 23-79):
`RetryIf::spawn` of the transaction attempt under the strategy built from
the descriptor and the `retry_on_transaction_fail` condition. -/
def call_contract_transaction (desc : ExponentialBackoffRetryDescriptor)
    (j : Nat → ℚ) (retry_on_transaction_fail : Bool)
    (envs : Nat → TransactionAttemptEnv) : Nat × Except ContractClientError Nat :=
  retryIfSpawn (retryDelays desc j) (fun i => transaction_attempt (envs i))
    (transaction_retry_condition retry_on_transaction_fail)

/-- `call_contract_view` (contract_client/src/lib.rs lines 84-113):
`Retry::spawn` retries every error, i.e. `RetryIf` with a constantly true
condition. -/
def call_contract_view {A : Type} (desc : ExponentialBackoffRetryDescriptor)
    (j : Nat → ℚ) (calls : Nat → Except ContractClientError A) :
    Nat × Except ContractClientError A :=
  retryIfSpawn (retryDelays desc j) calls (fun _ => true)

/-! ## PreGroupingSubscriber (subscriber/pre_grouping.rs) -/

/-- DKG status of a group (`arpa_node_core::DKGStatus`; variants per the
spec's group data model). Only `InPhase` is used by the embedded code. -/
inductive DKGStatus
  | None
  | InPhase
  | CommitSuccess
  | WaitForPostProcess
  | Timeout
deriving DecidableEq, Repr

/-- A DKG task as consumed by `PreGroupingSubscriber::notify`: only its
`group_index` and `epoch` fields are read; the rest of the record is kept
abstract as an opaque payload value. -/
structure DKGTask where
  group_index : Nat
  epoch : Nat
  payload : Nat
deriving DecidableEq, Repr

/-- The `NewDKGTask` event payload. -/
structure NewDKGTask where
  dkg_task : DKGTask
  self_index : Nat
deriving DecidableEq, Repr

/-- The `RunDKG` event payload. -/
structure RunDKG where
  dkg_task : DKGTask
deriving DecidableEq, Repr

/-- The group-cache trait methods `notify` uses
(`GroupInfoFetcher` and `GroupInfoUpdater` bounds), over an abstract cache
state `σ`: `get_index`, `get_epoch`, `save_task_info`, and
`update_dkg_status` (returning the updated state and the `bool` the source
binds to `res`). -/
structure GroupOps (σ : Type) where
  get_index : σ → Except Unit Nat
  get_epoch : σ → Except Unit Nat
  save_task_info : σ → Nat → DKGTask → Except Unit σ
  update_dkg_status : σ → Nat → Nat → DKGStatus → Except Unit (σ × Bool)

namespace PreGroupingSubscriber

/-- Shallow embedding of `PreGroupingSubscriber::notify`
(subscriber/pre_grouping.rs lines 72-117): read `get_index().unwrap_or(0)`
and `get_epoch().unwrap_or(0)`; when `(cache_index, cache_epoch)` differs
from `(task.group_index, task.epoch)`, call `save_task_info` (propagating
its error), then `update_dkg_status(.., .., InPhase)` (propagating its
error), and publish `RunDKG` exactly when the latter returned `true`.
The returned list is the sequence of published events. -/
def notify {σ : Type} (ops : GroupOps σ) (st : σ) (payload : NewDKGTask) :
    Except Unit (σ × List RunDKG) :=
  let cache_index := (ops.get_index st).toOption.getD 0
  let cache_epoch := (ops.get_epoch st).toOption.getD 0
  let task_group_index := payload.dkg_task.group_index
  let task_epoch := payload.dkg_task.epoch
  if cache_index ≠ task_group_index ∨ cache_epoch ≠ task_epoch then
    match ops.save_task_info st payload.self_index payload.dkg_task with
    | .error e => .error e
    | .ok st1 =>
      match ops.update_dkg_status st1 task_group_index task_epoch .InPhase with
      | .error e => .error e
      | .ok (st2, res) =>
        if res then .ok (st2, [⟨payload.dkg_task⟩]) else .ok (st2, [])
  else .ok (st, [])

end PreGroupingSubscriber

/-! ## Config (core/src/types/config.rs) -/

def DEFAULT_LISTENER_INTERVAL_MILLIS : Nat := 10000
def DEFAULT_LISTENER_USE_JITTER : Bool := true
def DEFAULT_DKG_TIMEOUT_DURATION : Nat := 10 * 4
def DEFAULT_RANDOMNESS_TASK_EXCLUSIVE_WINDOW : Nat := 10
def DEFAULT_DKG_WAIT_FOR_PHASE_INTERVAL_MILLIS : Nat := 10000
def DEFAULT_COMMIT_PARTIAL_SIGNATURE_RETRY_BASE : Nat := 2
def DEFAULT_COMMIT_PARTIAL_SIGNATURE_RETRY_FACTOR : Nat := 1000
def DEFAULT_COMMIT_PARTIAL_SIGNATURE_RETRY_MAX_ATTEMPTS : Nat := 5
def DEFAULT_COMMIT_PARTIAL_SIGNATURE_RETRY_USE_JITTER : Bool := true
def DEFAULT_CONTRACT_TRANSACTION_RETRY_BASE : Nat := 2
def DEFAULT_CONTRACT_TRANSACTION_RETRY_FACTOR : Nat := 1000
def DEFAULT_CONTRACT_TRANSACTION_RETRY_MAX_ATTEMPTS : Nat := 3
def DEFAULT_CONTRACT_TRANSACTION_RETRY_USE_JITTER : Bool := true
def DEFAULT_CONTRACT_VIEW_RETRY_BASE : Nat := 2
def DEFAULT_CONTRACT_VIEW_RETRY_FACTOR : Nat := 500
def DEFAULT_CONTRACT_VIEW_RETRY_MAX_ATTEMPTS : Nat := 3
def DEFAULT_CONTRACT_VIEW_RETRY_USE_JITTER : Bool := true
def DEFAULT_PROVIDER_POLLING_INTERVAL_MILLIS : Nat := 10000
def DEFAULT_ROLLING_LOG_FILE_SIZE : Nat := 10 * 1024 * 1024 * 1024

/-- `ListenerType` (config.rs lines 337-346). -/
inductive ListenerType
  | Block
  | PreGrouping
  | PostCommitGrouping
  | PostGrouping
  | NewRandomnessTask
  | ReadyToHandleRandomnessTask
  | RandomnessSignatureAggregation
deriving DecidableEq, Repr

/-- `ListenerDescriptor` (config.rs lines 187-192). -/
structure ListenerDescriptor where
  l_type : ListenerType
  interval_millis : Nat
  use_jitter : Bool
deriving DecidableEq, Repr

/-- `ListenerDescriptor::default(l_type)` (config.rs lines 203-209). -/
def ListenerDescriptor.default (l_type : ListenerType) : ListenerDescriptor :=
  { l_type := l_type
    interval_millis := DEFAULT_LISTENER_INTERVAL_MILLIS
    use_jitter := DEFAULT_LISTENER_USE_JITTER }

/-- `LoggerDescriptor` (config.rs lines 90-97). -/
structure LoggerDescriptor where
  node_id : String
  context_logging : Bool
  log_file_path : String
  rolling_file_size : Nat
deriving DecidableEq, Repr

/-- `impl Default for LoggerDescriptor` (config.rs lines 99-108). -/
def LoggerDescriptor.default : LoggerDescriptor :=
  { node_id := "running"
    context_logging := false
    log_file_path := "log/running"
    rolling_file_size := DEFAULT_ROLLING_LOG_FILE_SIZE }

/-- `TimeLimitDescriptor` (config.rs lines 212-222). -/
structure TimeLimitDescriptor where
  listener_interval_millis : Nat
  dkg_wait_for_phase_interval_millis : Nat
  dkg_timeout_duration : Nat
  randomness_task_exclusive_window : Nat
  provider_polling_interval_millis : Nat
  contract_transaction_retry_descriptor : ExponentialBackoffRetryDescriptor
  contract_view_retry_descriptor : ExponentialBackoffRetryDescriptor
  commit_partial_signature_retry_descriptor : ExponentialBackoffRetryDescriptor
deriving DecidableEq, Repr

/-- `Account` (config.rs lines 433-439), with the three signer sources kept
as opaque strings. -/
structure Account where
  hdwallet : Option String
  keystore : Option String
  private_key : Option String
deriving DecidableEq, Repr

/-- `Config` (config.rs lines 52-68). -/
structure Config where
  node_committer_rpc_endpoint : String
  node_advertised_committer_rpc_endpoint : Option String
  node_management_rpc_endpoint : String
  node_management_rpc_token : String
  provider_endpoint : String
  chain_id : Nat
  controller_address : String
  adapter_address : String
  data_path : Option String
  account : Account
  listeners : Option (List ListenerDescriptor)
  logger : Option LoggerDescriptor
  time_limits : Option TimeLimitDescriptor
deriving DecidableEq, Repr

/-- The listener list installed when `listeners` is absent
(config.rs lines 255-266). -/
def defaultListeners : List ListenerDescriptor :=
  [ListenerDescriptor.default .Block,
   ListenerDescriptor.default .PreGrouping,
   ListenerDescriptor.default .PostCommitGrouping,
   ListenerDescriptor.default .PostGrouping,
   ListenerDescriptor.default .NewRandomnessTask,
   ListenerDescriptor.default .ReadyToHandleRandomnessTask,
   ListenerDescriptor.default .RandomnessSignatureAggregation]

/-- The `TimeLimitDescriptor` installed when `time_limits` is absent
(config.rs lines 289-313). -/
def defaultTimeLimits : TimeLimitDescriptor :=
  { listener_interval_millis := DEFAULT_LISTENER_INTERVAL_MILLIS
    dkg_wait_for_phase_interval_millis := DEFAULT_DKG_WAIT_FOR_PHASE_INTERVAL_MILLIS
    dkg_timeout_duration := DEFAULT_DKG_TIMEOUT_DURATION
    randomness_task_exclusive_window := DEFAULT_RANDOMNESS_TASK_EXCLUSIVE_WINDOW
    provider_polling_interval_millis := DEFAULT_PROVIDER_POLLING_INTERVAL_MILLIS
    contract_transaction_retry_descriptor :=
      { base := DEFAULT_CONTRACT_TRANSACTION_RETRY_BASE
        factor := DEFAULT_CONTRACT_TRANSACTION_RETRY_FACTOR
        max_attempts := DEFAULT_CONTRACT_TRANSACTION_RETRY_MAX_ATTEMPTS
        use_jitter := DEFAULT_CONTRACT_TRANSACTION_RETRY_USE_JITTER }
    contract_view_retry_descriptor :=
      { base := DEFAULT_CONTRACT_VIEW_RETRY_BASE
        factor := DEFAULT_CONTRACT_VIEW_RETRY_FACTOR
        max_attempts := DEFAULT_CONTRACT_VIEW_RETRY_MAX_ATTEMPTS
        use_jitter := DEFAULT_CONTRACT_VIEW_RETRY_USE_JITTER }
    commit_partial_signature_retry_descriptor :=
      { base := DEFAULT_COMMIT_PARTIAL_SIGNATURE_RETRY_BASE
        factor := DEFAULT_COMMIT_PARTIAL_SIGNATURE_RETRY_FACTOR
        max_attempts := DEFAULT_COMMIT_PARTIAL_SIGNATURE_RETRY_MAX_ATTEMPTS
        use_jitter := DEFAULT_COMMIT_PARTIAL_SIGNATURE_RETRY_USE_JITTER } }

/-- `Config::initialize` (config.rs lines 241-317). The Rust `match` on
`self.time_limits.as_mut()` has five guarded arms over the same `Some`
pattern; a `match` selects the first arm whose guard holds, so the guards
are tested top to bottom and at most one assignment runs. That is embedded
as a nested if-chain. -/
def Config.initialize (c0 : Config) : Config :=
  let c1 := if c0.node_advertised_committer_rpc_endpoint.isNone then
      { c0 with node_advertised_committer_rpc_endpoint := some c0.node_committer_rpc_endpoint }
    else c0
  let c2 := if c1.data_path.isNone then { c1 with data_path := some "data.sqlite" } else c1
  let c3 := if c2.logger.isNone then { c2 with logger := some LoggerDescriptor.default } else c2
  let c4 := if c3.listeners.isNone then { c3 with listeners := some defaultListeners } else c3
  match c4.time_limits with
  | some tl =>
    if tl.listener_interval_millis = 0 then
      let tl2 := { tl with listener_interval_millis := DEFAULT_LISTENER_INTERVAL_MILLIS }
      { c4 with time_limits := some tl2 }
    else if tl.dkg_wait_for_phase_interval_millis = 0 then
      let tl2 := { tl with
        dkg_wait_for_phase_interval_millis := DEFAULT_DKG_WAIT_FOR_PHASE_INTERVAL_MILLIS }
      { c4 with time_limits := some tl2 }
    else if tl.dkg_timeout_duration = 0 then
      let tl2 := { tl with dkg_timeout_duration := DEFAULT_DKG_TIMEOUT_DURATION }
      { c4 with time_limits := some tl2 }
    else if tl.randomness_task_exclusive_window = 0 then
      let tl2 := { tl with
        randomness_task_exclusive_window := DEFAULT_RANDOMNESS_TASK_EXCLUSIVE_WINDOW }
      { c4 with time_limits := some tl2 }
    else if tl.provider_polling_interval_millis = 0 then
      let tl2 := { tl with
        provider_polling_interval_millis := DEFAULT_PROVIDER_POLLING_INTERVAL_MILLIS }
      { c4 with time_limits := some tl2 }
    else c4
  | none => { c4 with time_limits := some defaultTimeLimits }

/-! ## Logger rolling_file_size deserializer (config.rs, deserialize_limit) -/

/-- The deserialization errors the size visitor can produce
(`E::invalid_value` with, in order, the expectations "a non-negative
number", "a number", "a valid unit", "a byte size"). -/
inductive SizeVisitErr
  | negativeNumber
  | invalidNumber
  | invalidUnit
  | notAByteSize
deriving DecidableEq, Repr

/-- Rust `str::find(|c| !c.is_ascii_digit())` on a character list: index of
the first character that is not an ASCII digit. -/
def findFirstNonDigit : List Char → Option Nat
  | [] => none
  | c :: rest =>
    if c.isDigit then (findFirstNonDigit rest).map (· + 1) else some 0

/-- Rust `str::trim` restricted to ASCII whitespace (the inputs of the
claims are ASCII): strip leading whitespace. -/
def trimLeftChars (l : List Char) : List Char := l.dropWhile Char.isWhitespace

/-- Strip trailing whitespace. -/
def trimRightChars (l : List Char) : List Char :=
  (l.reverse.dropWhile Char.isWhitespace).reverse

/-- Rust `str::trim` on a character list. -/
def trimChars (l : List Char) : List Char := trimRightChars (trimLeftChars l)

/-- The numeric value of a digit string. -/
def digitsVal (l : List Char) : Nat :=
  l.foldl (fun acc c => acc * 10 + (c.toNat - 48)) 0

/-- Rust `str::parse::<u64>` as used here: the parsed slice is a (possibly
empty) run of ASCII digits, so parsing succeeds exactly when it is
non-empty and its value fits in a `u64`. -/
def parseU64 (l : List Char) : Option Nat :=
  if l.isEmpty then none
  else if l.all Char.isDigit then
    if digitsVal l ≤ U64_MAX then some (digitsVal l) else none
  else none

/-- Rust `str::eq_ignore_ascii_case`. -/
def eqIgnoreAsciiCase (a b : List Char) : Bool :=
  a.map Char.toLower == b.map Char.toLower

/-- The unit arm of `visit_str` (config.rs lines 163-175): `Some` of the
scaled `checked_mul` result for a recognized unit, `none` for an
unrecognized unit (the early `return Err(.. "a valid unit")`). -/
def unitScale (number : Nat) (u : List Char) : Option (Option Nat) :=
  if eqIgnoreAsciiCase u ("b".data) then some (some number)
  else if eqIgnoreAsciiCase u ("kb".data) || eqIgnoreAsciiCase u ("kib".data) then
    some (checkedMulU64 number 1024)
  else if eqIgnoreAsciiCase u ("mb".data) || eqIgnoreAsciiCase u ("mib".data) then
    some (checkedMulU64 number (1024 * 1024))
  else if eqIgnoreAsciiCase u ("gb".data) || eqIgnoreAsciiCase u ("gib".data) then
    some (checkedMulU64 number (1024 * 1024 * 1024))
  else if eqIgnoreAsciiCase u ("tb".data) || eqIgnoreAsciiCase u ("tib".data) then
    some (checkedMulU64 number (1024 * 1024 * 1024 * 1024))
  else none

/-- `deserialize_limit`'s `visit_str` (config.rs lines 144-181): split the
input at the first non-digit character, trim both parts, parse the number,
return it unchanged when there is no unit part, otherwise scale by the
recognized unit, reporting overflow as an error. -/
def visit_str (v : List Char) : Except SizeVisitErr Nat :=
  let split : List Char × Option (List Char) :=
    match findFirstNonDigit v with
    | some n => (trimChars (v.take n), some (trimChars (v.drop n)))
    | none => (trimChars v, none)
  match parseU64 split.1 with
  | none => .error .invalidNumber
  | some number =>
    match split.2 with
    | none => .ok number
    | some u =>
      match unitScale number u with
      | none => .error .invalidUnit
      | some none => .error .notAByteSize
      | some (some n) => .ok n

/-- `deserialize_limit`'s `visit_u64` (config.rs lines 123-128). -/
def visit_u64 (v : Nat) : Except SizeVisitErr Nat := .ok v

/-- `deserialize_limit`'s `visit_i64` (config.rs lines 130-142): negative
values are rejected, others returned as `u64`. -/
def visit_i64 (v : Int) : Except SizeVisitErr Nat :=
  if v < 0 then .error .negativeNumber else .ok v.toNat

/-! ## Theorems -/

/-- C10: for every `BLSResultCacheState` value `s`,
`from_i32 (to_i32 s) = s` — the conversions round-trip on
`{NotCommitted ↦ 0, Committing ↦ 1, Committed ↦ 2, CommittedByOthers ↦ 3}` —
and `From<i32>` panics (embedded as `none`) for every integer outside
`0..=3`. -/
theorem bls_result_cache_state_roundtrip (s : BLSResultCacheState) (n : Int) :
    BLSResultCacheState.from_i32 s.to_i32 = some s ∧
      ((n < 0 ∨ 3 < n) → BLSResultCacheState.from_i32 n = none) := by
  constructor
  · cases s <;> rfl
  · intro h
    have h0 : ¬n = 0 := by rcases h with h | h <;> omega
    have h1 : ¬n = 1 := by rcases h with h | h <;> omega
    have h2 : ¬n = 2 := by rcases h with h | h <;> omega
    have h3 : ¬n = 3 := by rcases h with h | h <;> omega
    simp [BLSResultCacheState.from_i32, h0, h1, h2, h3]

theorem bls_result_cache_state_roundtrip_witness :
    BLSResultCacheState.from_i32 (BLSResultCacheState.to_i32 .Committed) = some .Committed ∧
      BLSResultCacheState.from_i32 4 = none :=
  ⟨(bls_result_cache_state_roundtrip .Committed 4).1,
   (bls_result_cache_state_roundtrip .Committed 4).2 (Or.inr (by decide))⟩

/-- C2: the handler rejects with `NotFound` when `get_state()` is not
`Ok(true)`; otherwise with `NotFound` when this node is not a committer;
otherwise with `InvalidArgument` when the sender address does not parse;
otherwise with `NotFound` when the parsed sender is not a group member.
The checks happen in this order (each case is conditioned on all earlier
checks passing) and every rejection leaves the signature result cache
unchanged. -/
theorem commit_precheck_order {Addr PubKey : Type} (env : CommitEnv Addr PubKey)
    (cache : SigCache) (req : CommitPartialSignatureRequest) :
    ((env.get_state = .error () ∨ env.get_state = .ok false) →
      commit_partial_signature env cache req =
        ⟨.error .notFound .GroupNotReady, cache, false⟩) ∧
    (env.get_state = .ok true →
      (env.is_committer = .error () ∨ env.is_committer = .ok false) →
      commit_partial_signature env cache req =
        ⟨.error .notFound .NotCommitter, cache, false⟩) ∧
    (env.get_state = .ok true → env.is_committer = .ok true →
      env.parse_address req.id_address = none →
      commit_partial_signature env cache req =
        ⟨.error .invalidArgument .AddressFormatError, cache, false⟩) ∧
    (env.get_state = .ok true → env.is_committer = .ok true →
      ∀ a, env.parse_address req.id_address = some a →
        env.get_member a = .error () →
        commit_partial_signature env cache req =
          ⟨.error .notFound .MemberNotExisted, cache, false⟩) := by
  refine ⟨?_, ?_, ?_, ?_⟩
  · rintro (h | h) <;> simp [commit_partial_signature, h]
  · rintro hs (h | h) <;> simp [commit_partial_signature, hs, h]
  · intro hs hc hp
    simp [commit_partial_signature, hs, hc, hp]
  · intro hs hc a hp hm
    simp [commit_partial_signature, hs, hc, hp, hm]

/-- A concrete signature-result cache holding one entry at index 5 with
message "m". -/
def witnessCache : SigCache :=
  fun i => if i = 5 then some ⟨⟨"m"⟩, .NotCommitted⟩ else none

/-- A concrete empty signature-result cache. -/
def emptySigCache : SigCache := fun _ => none

/-- A concrete handler environment on which every check passes. -/
def witnessEnv : CommitEnv Nat Nat :=
  { get_state := .ok true
    is_committer := .ok true
    parse_address := fun _ => some 1
    get_member := fun _ => .ok ⟨some 7⟩
    partial_verify := fun _ _ _ => .ok ()
    string_from_utf8 := fun _ => some "m"
    add_partial_signature := fun c _ _ _ => .ok (c, true) }

/-- A concrete request for the main chain, task type Randomness, index 5. -/
def witnessReq : CommitPartialSignatureRequest :=
  { id_address := "0x01", chain_id := 0, task_type := 1, signature_index := 5,
    partial_signature := [1, 2], message := [109] }

/-- The witness environment with the group not ready. -/
def witnessEnvNotReady : CommitEnv Nat Nat := { witnessEnv with get_state := .ok false }

theorem commit_precheck_order_witness :
    commit_partial_signature witnessEnvNotReady witnessCache witnessReq =
      ⟨.error .notFound .GroupNotReady, witnessCache, false⟩ :=
  (commit_precheck_order witnessEnvNotReady witnessCache witnessReq).1 (Or.inr rfl)

/-- C1: for a request that passes the group, committer, member and
verification checks with task type `Randomness` (wire value 1) and the
accepted chain id 0: when the signature-result cache has no entry at
`signature_index` the handler returns `InvalidArgument`
(`CommitterCacheNotExisted`) with the cache unmutated; when an entry exists
but the (decoded) request message differs from the cached message it
returns `InvalidArgument` (`InvalidTaskMessage`) with the cache unmutated;
and `add_partial_signature` is invoked only when an entry exists whose
cached message equals the decoded request message, a reply with
`result = true` being produced only through such an invocation. -/
theorem commit_cache_gate {Addr PubKey : Type} (env : CommitEnv Addr PubKey)
    (cache : SigCache) (req : CommitPartialSignatureRequest)
    (a : Addr) (member : Member PubKey) (ppk : PubKey)
    (hstate : env.get_state = .ok true)
    (hcom : env.is_committer = .ok true)
    (hparse : env.parse_address req.id_address = some a)
    (hmember : env.get_member a = .ok member)
    (hppk : member.partial_public_key = some ppk)
    (hverify : env.partial_verify ppk req.message req.partial_signature = .ok ())
    (htask : req.task_type = 1)
    (hchain : req.chain_id = 0) :
    (cache req.signature_index = none →
      commit_partial_signature env cache req =
        ⟨.error .invalidArgument .CommitterCacheNotExisted, cache, false⟩) ∧
    (∀ entry s, cache req.signature_index = some entry →
      env.string_from_utf8 req.message = some s →
      s ≠ entry.result_cache.message →
      commit_partial_signature env cache req =
        ⟨.error .invalidArgument .InvalidTaskMessage, cache, false⟩) ∧
    ((commit_partial_signature env cache req).called_add_partial_signature = true →
      ∃ entry, cache req.signature_index = some entry ∧
        env.string_from_utf8 req.message = some entry.result_cache.message) ∧
    ((commit_partial_signature env cache req).result = .reply true →
      (commit_partial_signature env cache req).called_add_partial_signature = true) := by
  refine ⟨?_, ?_, ?_, ?_⟩
  · intro hcache
    simp [commit_partial_signature, hstate, hcom, hparse, hmember, hppk, hverify, htask,
      hchain, BLSTaskType.fromRaw, hcache]
  · intro entry s hcache hdec hne
    simp [commit_partial_signature, hstate, hcom, hparse, hmember, hppk, hverify, htask,
      hchain, BLSTaskType.fromRaw, hcache, hdec, hne]
  · intro hcall
    simp only [commit_partial_signature, hstate, hcom, hparse, hmember, hppk, hverify,
      htask, hchain, BLSTaskType.fromRaw, if_pos rfl] at hcall
    rcases hcache : cache req.signature_index with _ | entry <;>
      simp only [hcache, Option.isSome_none, Option.isSome_some] at hcall
    · simp at hcall
    · rcases hdec : env.string_from_utf8 req.message with _ | s <;>
        simp only [hdec] at hcall
      · simp at hcall
      · by_cases hne : s ≠ entry.result_cache.message
        · simp [hne] at hcall
        · push_neg at hne
          exact ⟨entry, rfl, by rw [hne]⟩
  · intro hreply
    simp only [commit_partial_signature, hstate, hcom, hparse, hmember, hppk, hverify,
      htask, hchain, BLSTaskType.fromRaw, if_pos rfl] at hreply ⊢
    rcases hcache : cache req.signature_index with _ | entry <;>
      simp only [hcache, Option.isSome_none, Option.isSome_some] at hreply ⊢
    · simp at hreply
    · rcases hdec : env.string_from_utf8 req.message with _ | s <;>
        simp only [hdec] at hreply ⊢
      · simp at hreply
      · by_cases hne : s ≠ entry.result_cache.message
        · simp [hne] at hreply
        · rcases hadd : env.add_partial_signature cache req.signature_index a
              req.partial_signature with _ | capair <;>
            simp [hne, hadd] at hreply ⊢

theorem commit_cache_gate_witness :
    commit_partial_signature witnessEnv emptySigCache witnessReq =
      ⟨.error .invalidArgument .CommitterCacheNotExisted, emptySigCache, false⟩ :=
  (commit_cache_gate witnessEnv emptySigCache witnessReq 1 ⟨some 7⟩ 7
    rfl rfl rfl rfl rfl rfl rfl rfl).1 rfl

/-- C5: once the group, committer, member and verification checks pass, a
request with task type `Randomness` (wire value 1) and a non-zero
`chain_id` is rejected with `InvalidArgument` (`InvalidChainId`) before any
cache access — only `chain_id = 0` proceeds — and a request whose task type
is not `Randomness` is rejected with `InvalidArgument`
(`InvalidTaskType`). -/
theorem commit_task_type_chain_gate {Addr PubKey : Type} (env : CommitEnv Addr PubKey)
    (cache : SigCache) (req : CommitPartialSignatureRequest)
    (a : Addr) (member : Member PubKey) (ppk : PubKey)
    (hstate : env.get_state = .ok true)
    (hcom : env.is_committer = .ok true)
    (hparse : env.parse_address req.id_address = some a)
    (hmember : env.get_member a = .ok member)
    (hppk : member.partial_public_key = some ppk)
    (hverify : env.partial_verify ppk req.message req.partial_signature = .ok ()) :
    (req.task_type = 1 → req.chain_id ≠ 0 →
      commit_partial_signature env cache req =
        ⟨.error .invalidArgument (.InvalidChainId req.chain_id), cache, false⟩) ∧
    (req.task_type ≠ 1 →
      commit_partial_signature env cache req =
        ⟨.error .invalidArgument .InvalidTaskType, cache, false⟩) := by
  constructor
  · intro htask hchain
    rcases hc : req.chain_id with _ | n
    · exact absurd hc hchain
    · simp [commit_partial_signature, hstate, hcom, hparse, hmember, hppk, hverify,
        htask, BLSTaskType.fromRaw, hc]
  · intro htask
    simp [commit_partial_signature, hstate, hcom, hparse, hmember, hppk, hverify,
      BLSTaskType.fromRaw, htask]

/-- The witness request addressed to a non-zero chain. -/
def witnessReqChain1 : CommitPartialSignatureRequest := { witnessReq with chain_id := 1 }

theorem commit_task_type_chain_gate_witness :
    commit_partial_signature witnessEnv witnessCache witnessReqChain1 =
      ⟨.error .invalidArgument (.InvalidChainId 1), witnessCache, false⟩ :=
  (commit_task_type_chain_gate witnessEnv witnessCache witnessReqChain1 1 ⟨some 7⟩ 7
    rfl rfl rfl rfl rfl rfl).1 rfl (by decide)

/-- C7: when the sender address parses and names a group member whose
record has `partial_public_key = None`, the handler panics (the `unwrap`
at server.rs line 126) instead of returning an RPC error status, leaving
the cache untouched. -/
theorem commit_missing_partial_public_key_panics {Addr PubKey : Type}
    (env : CommitEnv Addr PubKey) (cache : SigCache)
    (req : CommitPartialSignatureRequest) (a : Addr) (member : Member PubKey)
    (hstate : env.get_state = .ok true)
    (hcom : env.is_committer = .ok true)
    (hparse : env.parse_address req.id_address = some a)
    (hmember : env.get_member a = .ok member)
    (hppk : member.partial_public_key = none) :
    commit_partial_signature env cache req = ⟨.panic, cache, false⟩ := by
  simp [commit_partial_signature, hstate, hcom, hparse, hmember, hppk]

/-- The witness environment whose member record lacks a partial public key. -/
def witnessEnvNoKey : CommitEnv Nat Nat :=
  { witnessEnv with get_member := fun _ => .ok ⟨none⟩ }

theorem commit_missing_partial_public_key_panics_witness :
    commit_partial_signature witnessEnvNoKey witnessCache witnessReq =
      ⟨.panic, witnessCache, false⟩ :=
  commit_missing_partial_public_key_panics witnessEnvNoKey witnessCache witnessReq 1 ⟨none⟩
    rfl rfl rfl rfl rfl

/-- C6: `PreGroupingSubscriber::notify` compares
`(task.group_index, task.epoch)` against the cached `(index, epoch)`
(each read defaulting to 0 on failure): on equality it returns without
touching the cache and publishes nothing; otherwise it saves the task
info, updates the DKG status of `(task.group_index, task.epoch)` to
`InPhase`, and publishes `RunDKG` exactly when that update returned
`true`. -/
theorem pre_grouping_notify_spec {σ : Type} (ops : GroupOps σ) (st : σ)
    (payload : NewDKGTask) :
    ((ops.get_index st).toOption.getD 0 = payload.dkg_task.group_index →
      (ops.get_epoch st).toOption.getD 0 = payload.dkg_task.epoch →
      PreGroupingSubscriber.notify ops st payload = .ok (st, [])) ∧
    (¬((ops.get_index st).toOption.getD 0 = payload.dkg_task.group_index ∧
        (ops.get_epoch st).toOption.getD 0 = payload.dkg_task.epoch) →
      ∀ st1, ops.save_task_info st payload.self_index payload.dkg_task = .ok st1 →
      ∀ st2 res,
        ops.update_dkg_status st1 payload.dkg_task.group_index payload.dkg_task.epoch
            .InPhase = .ok (st2, res) →
        PreGroupingSubscriber.notify ops st payload =
          .ok (st2, if res then [⟨payload.dkg_task⟩] else [])) := by
  constructor
  · intro h1 h2
    simp [PreGroupingSubscriber.notify, h1, h2]
  · intro hne st1 hsave st2 res hupd
    have hcond : (ops.get_index st).toOption.getD 0 ≠ payload.dkg_task.group_index ∨
        (ops.get_epoch st).toOption.getD 0 ≠ payload.dkg_task.epoch := by
      by_contra hc
      push_neg at hc
      exact hne ⟨hc.1, hc.2⟩
    rcases hcond with h | h <;> cases res <;>
      simp [PreGroupingSubscriber.notify, h, hsave, hupd]

/-- A concrete group cache over `Nat` states: reads return `(0, 0)` and the
two updates bump the state, `update_dkg_status` reporting `true`. -/
def witnessGroupOps : GroupOps Nat :=
  { get_index := fun _ => .ok 0
    get_epoch := fun _ => .ok 0
    save_task_info := fun st _ _ => .ok (st + 1)
    update_dkg_status := fun st _ _ _ => .ok (st + 1, true) }

theorem pre_grouping_notify_spec_witness :
    PreGroupingSubscriber.notify witnessGroupOps 0 ⟨⟨2, 3, 0⟩, 1⟩ =
      .ok (2, [⟨⟨2, 3, 0⟩⟩]) :=
  (pre_grouping_notify_spec witnessGroupOps 0 ⟨⟨2, 3, 0⟩, 1⟩).2 (by decide) 1 rfl 2 true rfl

set_option maxHeartbeats 1600000 in
/-- The `time_limits` component of `Config::initialize`, extracted: the
earlier `if`-steps of `initialize` touch only other fields. -/
theorem config_initialize_time_limits_eq (c : Config) :
    c.initialize.time_limits =
      match c.time_limits with
      | some tl =>
        if tl.listener_interval_millis = 0 then
          some { tl with listener_interval_millis := DEFAULT_LISTENER_INTERVAL_MILLIS }
        else if tl.dkg_wait_for_phase_interval_millis = 0 then
          some { tl with dkg_wait_for_phase_interval_millis :=
                   DEFAULT_DKG_WAIT_FOR_PHASE_INTERVAL_MILLIS }
        else if tl.dkg_timeout_duration = 0 then
          some { tl with dkg_timeout_duration := DEFAULT_DKG_TIMEOUT_DURATION }
        else if tl.randomness_task_exclusive_window = 0 then
          some { tl with randomness_task_exclusive_window :=
                   DEFAULT_RANDOMNESS_TASK_EXCLUSIVE_WINDOW }
        else if tl.provider_polling_interval_millis = 0 then
          some { tl with provider_polling_interval_millis :=
                   DEFAULT_PROVIDER_POLLING_INTERVAL_MILLIS }
        else some tl
      | none => some defaultTimeLimits := by
  obtain ⟨e1, adv, e2, e3, e4, cid, e5, e6, dp, acct, ls, lg, tlim⟩ := c
  rcases tlim with _ | tl <;>
    rcases adv with _ | adv <;> rcases dp with _ | dp <;> rcases lg with _ | lg <;>
      rcases ls with _ | ls <;>
    simp only [ Config.initialize, Option.isNone_none, Option.isNone_some,
      Bool.false_eq_true, if_true, if_false] <;>
    split_ifs <;> rfl

/-- C8: `Config::initialize` replaces at most one zero-valued field of an
existing `time_limits` per call. The five arms are tested in source order
and only the first matching one fires, so each conclusion below replaces
exactly the named field and keeps every later field — zero or not —
unchanged; in particular, for an input with both
`listener_interval_millis = 0` and `dkg_timeout_duration = 0`, only the
former is defaulted and the latter stays 0. -/
theorem config_initialize_time_limits_first_zero (c : Config)
    (tl : TimeLimitDescriptor) (htl : c.time_limits = some tl) :
    (tl.listener_interval_millis = 0 →
      c.initialize.time_limits =
        some { tl with listener_interval_millis := DEFAULT_LISTENER_INTERVAL_MILLIS }) ∧
    (tl.listener_interval_millis ≠ 0 → tl.dkg_wait_for_phase_interval_millis = 0 →
      c.initialize.time_limits =
        some { tl with dkg_wait_for_phase_interval_millis :=
                 DEFAULT_DKG_WAIT_FOR_PHASE_INTERVAL_MILLIS }) ∧
    (tl.listener_interval_millis ≠ 0 → tl.dkg_wait_for_phase_interval_millis ≠ 0 →
      tl.dkg_timeout_duration = 0 →
      c.initialize.time_limits =
        some { tl with dkg_timeout_duration := DEFAULT_DKG_TIMEOUT_DURATION }) ∧
    (tl.listener_interval_millis ≠ 0 → tl.dkg_wait_for_phase_interval_millis ≠ 0 →
      tl.dkg_timeout_duration ≠ 0 → tl.randomness_task_exclusive_window = 0 →
      c.initialize.time_limits =
        some { tl with randomness_task_exclusive_window :=
                 DEFAULT_RANDOMNESS_TASK_EXCLUSIVE_WINDOW }) ∧
    (tl.listener_interval_millis ≠ 0 → tl.dkg_wait_for_phase_interval_millis ≠ 0 →
      tl.dkg_timeout_duration ≠ 0 → tl.randomness_task_exclusive_window ≠ 0 →
      tl.provider_polling_interval_millis = 0 →
      c.initialize.time_limits =
        some { tl with provider_polling_interval_millis :=
                 DEFAULT_PROVIDER_POLLING_INTERVAL_MILLIS }) := by
  refine ⟨?_, ?_, ?_, ?_, ?_⟩ <;> intro h1 <;>
    first
      | (intro h2 h3 h4 h5
         simp [config_initialize_time_limits_eq, htl, h1, h2, h3, h4, h5])
      | (intro h2 h3 h4
         simp [config_initialize_time_limits_eq, htl, h1, h2, h3, h4])
      | (intro h2 h3
         simp [config_initialize_time_limits_eq, htl, h1, h2, h3])
      | (intro h2
         simp [config_initialize_time_limits_eq, htl, h1, h2])
      | simp [config_initialize_time_limits_eq, htl, h1]

/-- A concrete `time_limits` with two zero fields: the listener interval
(first arm) and the DKG timeout (third arm). -/
def witnessTimeLimits : TimeLimitDescriptor :=
  { listener_interval_millis := 0
    dkg_wait_for_phase_interval_millis := 7
    dkg_timeout_duration := 0
    randomness_task_exclusive_window := 9
    provider_polling_interval_millis := 11
    contract_transaction_retry_descriptor := ⟨2, 1000, 3, true⟩
    contract_view_retry_descriptor := ⟨2, 500, 3, true⟩
    commit_partial_signature_retry_descriptor := ⟨2, 1000, 5, true⟩ }

/-- A concrete full config carrying `witnessTimeLimits`. -/
def witnessConfig : Config :=
  { node_committer_rpc_endpoint := "a"
    node_advertised_committer_rpc_endpoint := some "a"
    node_management_rpc_endpoint := "b"
    node_management_rpc_token := "t"
    provider_endpoint := "p"
    chain_id := 0
    controller_address := "c"
    adapter_address := "d"
    data_path := some "data.sqlite"
    account := ⟨none, none, none⟩
    listeners := some []
    logger := some LoggerDescriptor.default
    time_limits := some witnessTimeLimits }

theorem config_initialize_time_limits_first_zero_witness :
    witnessConfig.initialize.time_limits =
      some { witnessTimeLimits with
               listener_interval_millis := DEFAULT_LISTENER_INTERVAL_MILLIS } ∧
    ({ witnessTimeLimits with
         listener_interval_millis :=
           DEFAULT_LISTENER_INTERVAL_MILLIS } : TimeLimitDescriptor).dkg_timeout_duration
      = 0 :=
  ⟨(config_initialize_time_limits_first_zero witnessConfig witnessTimeLimits rfl).1 rfl,
   by decide⟩

/-- Every run of the retry loop performs at least one attempt. -/
theorem retryIfRun_fst_pos {D E A : Type} (cond : E → Bool) (action : Nat → Except E A)
    (delays : List D) : ∀ i, 1 ≤ (retryIfRun cond action delays i).1 := by
  induction delays with
  | nil =>
    intro i
    unfold retryIfRun
    rcases action i with e | a
    · by_cases hc : cond e <;> simp [hc]
    · simp
  | cons d rest ih =>
    intro i
    unfold retryIfRun
    rcases action i with e | a
    · by_cases hc : cond e <;> simp [hc]
    · simp

/-- The retry loop performs at most one attempt more than the number of
available delays. -/
theorem retryIfRun_fst_le {D E A : Type} (cond : E → Bool) (action : Nat → Except E A)
    (delays : List D) : ∀ i, (retryIfRun cond action delays i).1 ≤ delays.length + 1 := by
  induction delays with
  | nil =>
    intro i
    unfold retryIfRun
    rcases action i with e | a
    · by_cases hc : cond e <;> simp [hc]
    · simp
  | cons d rest ih =>
    intro i
    unfold retryIfRun
    rcases action i with e | a
    · by_cases hc : cond e
      · have h := ih (i + 1)
        simp only [hc, if_true, List.length_cons]
        show (retryIfRun cond action rest (i + 1)).1 + 1 ≤ rest.length + 1 + 1
        omega
      · simp [hc]
    · simp

theorem backoffTake_length : ∀ (s : ExponentialBackoff) (n : Nat),
    (backoffTake s n).length = n := by
  intro s n
  induction n generalizing s with
  | zero => rfl
  | succ m ih => simp [backoffTake, ih]

theorem mapJitter_length (u : Bool) (j : Nat → ℚ) :
    ∀ (s : Nat) (l : List Nat), (mapJitter u j s l).length = l.length := by
  intro s l
  induction l generalizing s with
  | nil => rfl
  | cons d rest ih => simp [mapJitter, ih]

theorem retryDelays_length (desc : ExponentialBackoffRetryDescriptor) (j : Nat → ℚ) :
    (retryDelays desc j).length = desc.max_attempts := by
  simp [retryDelays, mapJitter_length, backoffTake_length]

/-- Closed form of the backoff iterator: starting from `current = c`, the
`k`-th emitted delay is `c * b^k * f` milliseconds as long as neither the
emitted product nor the `current` update has saturated. -/
theorem backoffTake_get (b f : Nat) (hb : 1 ≤ b) (hf : 1 ≤ f) :
    ∀ (k n c : Nat), k < n → c * b ^ k * f ≤ U64_MAX → c * b ^ (k + 1) ≤ U64_MAX →
      (backoffTake ⟨c, b, f⟩ n).get? k = some (c * b ^ k * f) := by
  intro k
  induction k with
  | zero =>
    intro n c hk h1 h2
    rcases n with _ | m
    · omega
    · have h1' : c * f ≤ U64_MAX := by simpa using h1
      simp [backoffTake, ExponentialBackoff.next, checkedMulU64, h1']
  | succ k ih =>
    intro n c hk h1 h2
    rcases n with _ | m
    · omega
    · have hbpow : b ^ 1 ≤ b ^ (k + 1) := Nat.pow_le_pow_right hb (by omega)
      have hb1 : c * b ≤ c * b ^ (k + 1) := by
        calc c * b = c * b ^ 1 := by rw [pow_one]
        _ ≤ c * b ^ (k + 1) := Nat.mul_le_mul_left c hbpow
      have hstep : c * b ^ (k + 1) ≤ c * b ^ (k + 1) * f := Nat.le_mul_of_pos_right _ (by omega)
      have hcb : c * b ≤ U64_MAX := le_trans hb1 (le_trans hstep h1)
      have e1 : c * b * b ^ k * f = c * b ^ (k + 1) * f := by ring
      have e2 : c * b * b ^ (k + 1) = c * b ^ (k + 1 + 1) := by ring
      have htail := ih m (c * b) (by omega) (by rw [e1]; exact h1) (by rw [e2]; exact h2)
      calc (backoffTake ⟨c, b, f⟩ (m + 1)).get? (k + 1)
          = (backoffTake (ExponentialBackoff.next ⟨c, b, f⟩).2 m).get? k := by
            simp [backoffTake]
        _ = (backoffTake ⟨c * b, b, f⟩ m).get? k := by
            rw [show (ExponentialBackoff.next ⟨c, b, f⟩).2 = ⟨c * b, b, f⟩ from by
              simp [ExponentialBackoff.next, checkedMulU64, hcb]]
        _ = some (c * b * b ^ k * f) := htail
        _ = some (c * b ^ (k + 1) * f) := by rw [e1]

/-- Indexing through the jitter map: element `k` of the mapped list is the
corresponding source delay, multiplied by the `(s + k)`-th jitter sample
exactly when jitter is enabled. -/
theorem mapJitter_get (u : Bool) (j : Nat → ℚ) :
    ∀ (l : List Nat) (s k : Nat),
      (mapJitter u j s l).get? k =
        (l.get? k).map (fun d => if u then jitter j (s + k) (d : ℚ) else (d : ℚ)) := by
  intro l
  induction l with
  | nil =>
    intro s k
    simp [mapJitter]
  | cons d rest ih =>
    intro s k
    rcases k with _ | k
    · simp [mapJitter]
    · have e : s + 1 + k = s + (k + 1) := by omega
      simp only [mapJitter, List.get?]
      rw [ih (s + 1) k, e]

/-- C3: in `call_contract_transaction`, an attempt whose transaction is
mined with receipt status 0 yields `TransactionFailed`; with
`retry_on_transaction_fail = false` the retry predicate returns `false`
exactly for `TransactionFailed`, so such a failure is not retried (the
call stops after that one attempt), while any other error is retried as
long as the backoff strategy has delays left; with
`retry_on_transaction_fail = true` every error satisfies the retry
predicate. -/
theorem transaction_retry_policy (env : TransactionAttemptEnv)
    (receipt : TransactionReceipt) (e : ContractClientError)
    (desc : ExponentialBackoffRetryDescriptor) (j : Nat → ℚ)
    (envs : Nat → TransactionAttemptEnv) :
    (env.send = .ok () → env.await_receipt = .ok (some receipt) →
      receipt.status = some 0 → transaction_attempt env = .error .TransactionFailed) ∧
    (transaction_retry_condition false e = false ↔ e = .TransactionFailed) ∧
    (transaction_retry_condition true e = true) ∧
    (transaction_attempt (envs 0) = .error .TransactionFailed →
      (call_contract_transaction desc j false envs).1 = 1) ∧
    (∀ e2, transaction_attempt (envs 0) = .error e2 → e2 ≠ .TransactionFailed →
      desc.max_attempts ≠ 0 → 2 ≤ (call_contract_transaction desc j false envs).1) := by
  refine ⟨?_, ?_, ?_, ?_, ?_⟩
  · intro hsend hrec hstatus
    simp [transaction_attempt, hsend, hrec, hstatus]
  · cases e <;> simp [transaction_retry_condition]
  · simp [transaction_retry_condition]
  · intro hfail
    unfold call_contract_transaction retryIfSpawn
    unfold retryIfRun
    simp [hfail, transaction_retry_condition]
  · intro e2 herr hne hnonzero
    unfold call_contract_transaction retryIfSpawn
    rcases hd : retryDelays desc j with _ | ⟨d, rest⟩
    · have := retryDelays_length desc j
      rw [hd] at this
      simp at this
      omega
    · unfold retryIfRun
      have hcond : transaction_retry_condition false e2 = true := by
        cases e2 <;> simp [transaction_retry_condition] at hne ⊢
      simp only [herr, hcond, if_true]
      have := retryIfRun_fst_pos (transaction_retry_condition false)
        (fun i => transaction_attempt (envs i)) rest 1
      show (retryIfRun (transaction_retry_condition false)
          (fun i => transaction_attempt (envs i)) rest 1).1 + 1 ≥ 2
      omega

/-- A concrete attempt environment whose transaction is mined with a
failure-status receipt. -/
def witnessFailedReceiptEnv : TransactionAttemptEnv :=
  { send := .ok (), await_receipt := .ok (some ⟨some 0, 42⟩) }

theorem transaction_retry_policy_witness :
    transaction_attempt witnessFailedReceiptEnv = .error .TransactionFailed ∧
    (call_contract_transaction ⟨2, 1000, 3, false⟩ (fun _ => 1) false
        (fun _ => witnessFailedReceiptEnv)).1 = 1 :=
  ⟨(transaction_retry_policy witnessFailedReceiptEnv ⟨some 0, 42⟩ .TransactionFailed
      ⟨2, 1000, 3, false⟩ (fun _ => 1) (fun _ => witnessFailedReceiptEnv)).1 rfl rfl rfl,
   (transaction_retry_policy witnessFailedReceiptEnv ⟨some 0, 42⟩ .TransactionFailed
      ⟨2, 1000, 3, false⟩ (fun _ => 1) (fun _ => witnessFailedReceiptEnv)).2.2.2.1 rfl⟩

/-- C4 counterexample: for the descriptor
`{base := 2, factor := 1000, max_attempts := 3}` (the default transaction
descriptor) the strategy's delays are `[2000, 4000, 8000]` ms — the delay
before the 2nd retry is `4000 = factor * base^2`, not
`base * factor^2 = 2000000` as claimed — and an operation whose attempts
all fail with a retryable error performs `4 > 3 = max_attempts` attempts:
`take(max_attempts)` bounds the retries, not the attempts. -/
theorem retry_backoff_claim_counterexample :
    retryDelays ⟨2, 1000, 3, false⟩ (fun _ => 1) = [(2000 : ℚ), 4000, 8000] ∧
    ((4000 : ℚ) ≠ ((2 * 1000 ^ 2 : Nat) : ℚ)) ∧
    (call_contract_transaction ⟨2, 1000, 3, false⟩ (fun _ => 1) false
        (fun _ => { send := .error .SendError, await_receipt := .ok none })).1 = 4 ∧
    (3 : Nat) < 4 := by
  refine ⟨by decide, by norm_num, by decide, by norm_num⟩

/-- C4 (amended): a retryable operation built from
`ExponentialBackoffRetryDescriptor {base, factor, max_attempts, use_jitter}`
— both `call_contract_transaction` and `call_contract_view` — performs at
most `max_attempts + 1` attempts in total (`max_attempts` bounds the
retries), and the delay before the `(k+1)`-st retry is
`factor * base^(k+1)` milliseconds (saturating at `u64::MAX`), multiplied
by the `k`-th jitter sample from `[0.5, 1.0]` if and only if `use_jitter`
is true. -/
theorem retry_backoff_amended {A : Type} (desc : ExponentialBackoffRetryDescriptor)
    (j : Nat → ℚ) (retry_on_transaction_fail : Bool)
    (envs : Nat → TransactionAttemptEnv) (calls : Nat → Except ContractClientError A)
    (k : Nat) :
    (call_contract_transaction desc j retry_on_transaction_fail envs).1 ≤
        desc.max_attempts + 1 ∧
    (call_contract_view desc j calls).1 ≤ desc.max_attempts + 1 ∧
    (k < desc.max_attempts → 1 ≤ desc.base → 1 ≤ desc.factor →
      desc.base ^ (k + 1) * desc.factor ≤ U64_MAX → desc.base ^ (k + 2) ≤ U64_MAX →
      (retryDelays desc j).get? k =
        some (if desc.use_jitter then
                jitter j k ((desc.base ^ (k + 1) * desc.factor : Nat) : ℚ)
              else ((desc.base ^ (k + 1) * desc.factor : Nat) : ℚ))) := by
  refine ⟨?_, ?_, ?_⟩
  · calc (call_contract_transaction desc j retry_on_transaction_fail envs).1
        ≤ (retryDelays desc j).length + 1 :=
          retryIfRun_fst_le _ (fun i => transaction_attempt (envs i)) (retryDelays desc j) 0
      _ = desc.max_attempts + 1 := by rw [retryDelays_length]
  · calc (call_contract_view desc j calls).1
        ≤ (retryDelays desc j).length + 1 :=
          retryIfRun_fst_le _ calls (retryDelays desc j) 0
      _ = desc.max_attempts + 1 := by rw [retryDelays_length]
  · intro hk hb hf h1 h2
    have e1 : desc.base * desc.base ^ k * desc.factor =
        desc.base ^ (k + 1) * desc.factor := by ring
    have e2 : desc.base * desc.base ^ (k + 1) = desc.base ^ (k + 2) := by ring
    have hget := backoffTake_get desc.base desc.factor hb hf k desc.max_attempts desc.base
      hk (by rw [e1]; exact h1) (by rw [e2]; exact h2)
    unfold retryDelays
    rw [mapJitter_get, hget]
    simp [e1]

theorem retry_backoff_amended_witness :
    (call_contract_transaction ⟨2, 1000, 3, true⟩ (fun _ => (1 : ℚ) / 2) false
        (fun _ => witnessFailedReceiptEnv)).1 ≤ 3 + 1 ∧
    (retryDelays ⟨2, 1000, 3, true⟩ (fun _ => (1 : ℚ) / 2)).get? 1 =
      some (jitter (fun _ => (1 : ℚ) / 2) 1 ((2 ^ (1 + 1) * 1000 : Nat) : ℚ)) :=
  ⟨(retry_backoff_amended ⟨2, 1000, 3, true⟩ (fun _ => (1 : ℚ) / 2) false
      (fun _ => witnessFailedReceiptEnv)
      (fun _ => (.ok 0 : Except ContractClientError Nat)) 1).1,
   (retry_backoff_amended ⟨2, 1000, 3, true⟩ (fun _ => (1 : ℚ) / 2) false
      (fun _ => witnessFailedReceiptEnv)
      (fun _ => (.ok 0 : Except ContractClientError Nat)) 1).2.2
     (by norm_num) (by norm_num) (by norm_num) (by decide) (by decide)⟩

/-- A whitespace character is not an ASCII digit. -/
theorem whitespace_not_digit (c : Char) (h : c.isWhitespace = true) : c.isDigit = false := by
  have h2 : c = ' ' ∨ c = '\t' ∨ c = '\r' ∨ c = '\n' := by
    simpa [Char.isWhitespace, or_assoc] using h
  rcases h2 with rfl | rfl | rfl | rfl <;> decide

/-- An ASCII digit is not whitespace. -/
theorem digit_not_whitespace (c : Char) (h : c.isDigit = true) : c.isWhitespace = false := by
  cases hw : c.isWhitespace
  · rfl
  · rw [whitespace_not_digit c hw] at h
    cases h

/-- `find` returns nothing on an all-digit string. -/
theorem findFirstNonDigit_all_digits (d : List Char)
    (hdig : ∀ c ∈ d, c.isDigit = true) : findFirstNonDigit d = none := by
  induction d with
  | nil => rfl
  | cons a l ih =>
    simp only [findFirstNonDigit, hdig a (by simp), if_true]
    rw [ih (fun c hc => hdig c (by simp [hc]))]
    rfl

/-- `find` on a digit run followed by a non-digit stops exactly at the end
of the run. -/
theorem findFirstNonDigit_append_nondigit (d : List Char) (c : Char) (rest : List Char)
    (hdig : ∀ x ∈ d, x.isDigit = true) (hc : c.isDigit = false) :
    findFirstNonDigit (d ++ c :: rest) = some d.length := by
  induction d with
  | nil => simp [findFirstNonDigit, hc]
  | cons a l ih =>
    simp only [List.cons_append, findFirstNonDigit, hdig a (by simp), if_true,
      List.append_eq]
    rw [ih (fun x hx => hdig x (by simp [hx]))]
    simp

theorem dropWhile_append_all {p : Char → Bool} (l r : List Char)
    (h : ∀ c ∈ l, p c = true) : (l ++ r).dropWhile p = r.dropWhile p := by
  induction l with
  | nil => simp
  | cons a l ih =>
    simp only [List.cons_append, List.dropWhile_cons, h a (by simp), if_true]
    exact ih (fun c hc => h c (by simp [hc]))

theorem dropWhile_head_false {p : Char → Bool} (l : List Char)
    (h : ∀ c, l.head? = some c → p c = false) : l.dropWhile p = l := by
  cases l with
  | nil => rfl
  | cons a l => simp [List.dropWhile_cons, h a rfl]

/-- The head given by `head?` is a member of the list. -/
theorem mem_of_head?_eq_some {α : Type} {l : List α} {a : α} (h : l.head? = some a) :
    a ∈ l := by
  cases l with
  | nil => cases h
  | cons x xs =>
    have h2 : some x = some a := h
    cases h2
    exact List.mem_cons_self _ _

/-- `trim` leaves a whitespace-free string unchanged. -/
theorem trimChars_of_no_ws (l : List Char) (h : ∀ c ∈ l, c.isWhitespace = false) :
    trimChars l = l := by
  unfold trimChars trimLeftChars trimRightChars
  rw [dropWhile_head_false l (fun c hc => h c (mem_of_head?_eq_some hc))]
  rw [dropWhile_head_false l.reverse
    (fun c hc => h c (List.mem_reverse.mp (mem_of_head?_eq_some hc)))]
  exact List.reverse_reverse l

theorem head?_append_left {α : Type} (u r : List α) (hu : u ≠ []) :
    (u ++ r).head? = u.head? := by
  cases u with
  | nil => exact absurd rfl hu
  | cons x xs => rfl

/-- `trim` of whitespace ++ token ++ whitespace is the token, when the
token neither starts nor ends with whitespace. -/
theorem trimChars_sandwich (ws u ws' : List Char)
    (hws : ∀ c ∈ ws, c.isWhitespace = true) (hws' : ∀ c ∈ ws', c.isWhitespace = true)
    (hu : u ≠ [])
    (huh : ∀ c, u.head? = some c → c.isWhitespace = false)
    (hul : ∀ c, u.getLast? = some c → c.isWhitespace = false) :
    trimChars (ws ++ u ++ ws') = u := by
  unfold trimChars trimLeftChars trimRightChars
  rw [show ws ++ u ++ ws' = ws ++ (u ++ ws') from by simp]
  rw [dropWhile_append_all ws (u ++ ws') hws]
  rw [dropWhile_head_false (u ++ ws') (fun c hc => huh c (by
    rwa [head?_append_left u ws' hu] at hc))]
  rw [List.reverse_append]
  rw [dropWhile_append_all ws'.reverse u.reverse
    (fun c hc => hws' c (List.mem_reverse.mp hc))]
  rw [dropWhile_head_false u.reverse (fun c hc => hul c (by
    rwa [List.head?_reverse] at hc))]
  exact List.reverse_reverse u

/-- `parse::<u64>` on a non-empty digit run. -/
theorem parseU64_digits (d : List Char) (hdig : ∀ c ∈ d, c.isDigit = true) (hne : d ≠ []) :
    parseU64 d = if digitsVal d ≤ U64_MAX then some (digitsVal d) else none := by
  have hemp : d.isEmpty = false := by
    cases d with
    | nil => exact absurd rfl hne
    | cons x xs => rfl
  have hall : d.all Char.isDigit = true := List.all_eq_true.mpr hdig
  simp [parseU64, hemp, hall]

/-- C9 counterexample: whitespace is not accepted before the digits. On
`" 10kb"` the split at the first non-digit character (index 0, the space)
leaves an empty number part, so the deserializer rejects the string
instead of returning `10 * 1024` as the claim's "whitespace allowed around
each part" reading demands. -/
theorem rolling_file_size_leading_whitespace_counterexample :
    visit_str (" 10kb".data) = .error .invalidNumber ∧
      visit_str (" 10kb".data) ≠ .ok (10 * 1024) := by
  exact ⟨by decide, by decide⟩

/-- C9 (amended): the `rolling_file_size` deserializer maps a string of
digits, then optional whitespace, then a unit, then optional trailing
whitespace — whitespace is allowed between the digits and the unit and
after the unit, but not before the digits — to the parsed number scaled by
the unit's multiplier `1024^r` (`b ↦ 1`, `kb/kib ↦ 1024^1`,
`mb/mib ↦ 1024^2`, `gb/gib ↦ 1024^3`, `tb/tib ↦ 1024^4`, unit
case-insensitive), reporting an error for an unrecognized unit or a scaled
value overflowing `u64`; a bare all-digit string maps to its value
(erroring past `u64::MAX`), a `u64` integer maps to itself, a negative
`i64` is rejected, and any string whose first character is not a digit
(whitespace included) is rejected. -/
theorem rolling_file_size_amended (d ws u ws' rest : List Char) (c : Char)
    (number : Nat) (i : Int) :
    ((∀ x ∈ d, x.isDigit = true) → d ≠ [] →
      (∀ x ∈ ws, x.isWhitespace = true) → (∀ x ∈ ws', x.isWhitespace = true) →
      u ≠ [] →
      (∀ x, u.head? = some x → x.isDigit = false ∧ x.isWhitespace = false) →
      (∀ x, u.getLast? = some x → x.isWhitespace = false) →
      visit_str (d ++ ws ++ u ++ ws') =
        if digitsVal d ≤ U64_MAX then
          match unitScale (digitsVal d) u with
          | none => .error .invalidUnit
          | some none => .error .notAByteSize
          | some (some n) => .ok n
        else .error .invalidNumber) ∧
    ((∀ x ∈ d, x.isDigit = true) → d ≠ [] →
      visit_str d =
        if digitsVal d ≤ U64_MAX then .ok (digitsVal d) else .error .invalidNumber) ∧
    (c.isDigit = false → visit_str (c :: rest) = .error .invalidNumber) ∧
    (unitScale number ("b".data) = some (some number) ∧
      unitScale number ("kb".data) = some (checkedMulU64 number (1024 ^ 1)) ∧
      unitScale number ("kib".data) = some (checkedMulU64 number (1024 ^ 1)) ∧
      unitScale number ("KiB".data) = some (checkedMulU64 number (1024 ^ 1)) ∧
      unitScale number ("mb".data) = some (checkedMulU64 number (1024 ^ 2)) ∧
      unitScale number ("gb".data) = some (checkedMulU64 number (1024 ^ 3)) ∧
      unitScale number ("TB".data) = some (checkedMulU64 number (1024 ^ 4))) ∧
    (visit_u64 number = .ok number) ∧
    (i < 0 → visit_i64 i = .error .negativeNumber) := by
  refine ⟨?_, ?_, ?_, ⟨rfl, rfl, rfl, rfl, rfl, rfl, rfl⟩, rfl, ?_⟩
  · intro hdig hdne hws hws' hune huh hul
    obtain ⟨c0, rest0, hr, hc0⟩ : ∃ c0 rest0,
        ws ++ u ++ ws' = c0 :: rest0 ∧ c0.isDigit = false := by
      rcases hwsc : ws with _ | ⟨w, ws2⟩
      · rcases huc : u with _ | ⟨uc, urest⟩
        · exact absurd huc hune
        · exact ⟨uc, urest ++ ws', by simp, (huh uc (by rw [huc]; rfl)).1⟩
      · exact ⟨w, ws2 ++ u ++ ws',
          by simp, whitespace_not_digit w (hws w (by rw [hwsc]; simp))⟩
    have hassoc : d ++ ws ++ u ++ ws' = d ++ (ws ++ u ++ ws') := by simp
    have hfind : findFirstNonDigit (d ++ ws ++ u ++ ws') = some d.length := by
      rw [hassoc, hr]
      exact findFirstNonDigit_append_nondigit d c0 rest0 hdig hc0
    have htake : (d ++ ws ++ u ++ ws').take d.length = d := by
      rw [hassoc]
      exact List.take_left d (ws ++ u ++ ws')
    have hdrop : (d ++ ws ++ u ++ ws').drop d.length = ws ++ u ++ ws' := by
      rw [hassoc]
      exact List.drop_left d (ws ++ u ++ ws')
    have htrimd : trimChars d = d :=
      trimChars_of_no_ws d (fun x hx => digit_not_whitespace x (hdig x hx))
    have htrimu : trimChars (ws ++ u ++ ws') = u :=
      trimChars_sandwich ws u ws' hws hws' hune (fun x hx => (huh x hx).2) hul
    simp only [visit_str, hfind, htake, hdrop, htrimd, htrimu,
      parseU64_digits d hdig hdne]
    by_cases hle : digitsVal d ≤ U64_MAX <;> simp [hle]
  · intro hdig hdne
    have hfind : findFirstNonDigit d = none := findFirstNonDigit_all_digits d hdig
    have htrimd : trimChars d = d :=
      trimChars_of_no_ws d (fun x hx => digit_not_whitespace x (hdig x hx))
    simp only [visit_str, hfind, htrimd, parseU64_digits d hdig hdne]
    by_cases hle : digitsVal d ≤ U64_MAX <;> simp [hle]
  · intro hc
    simp [visit_str, findFirstNonDigit, hc, trimChars, trimLeftChars, trimRightChars,
      parseU64]
  · intro hi
    simp [visit_i64, hi]

theorem rolling_file_size_amended_witness :
    visit_str ("10".data ++ [' '] ++ "kb".data ++ []) = .ok (10 * 1024) :=
  (rolling_file_size_amended ("10".data) [' '] ("kb".data) [] [] 'x' 0 0).1
    (by decide) (by decide) (by decide) (by decide) (by decide)
    (fun x hx => by
      have h2 : some 'k' = some x := hx
      cases h2
      exact ⟨rfl, rfl⟩)
    (fun x hx => by
      have h2 : some 'b' = some x := hx
      cases h2
      rfl)
